import Mathlib

/-!
Verification of `sxcv.py`, a small teaching wrapper over OpenCV/numpy.
The embedding models images as shaped arrays with a dtype tag, the
process-wide debug state as an explicit record, and the side-effecting
display routines as functions producing traces of effects.
-/

namespace Sxcv

/-- An image in the numpy sense: a shape (list of extents, outermost
first), a dtype name, and pixel accessors.  Rank-2 images are read
through `at2`, rank-3 images through `at3` (channel last). -/
structure Image where
  shape : List Nat
  dtype : String
  at2 : Nat → Nat → Int
  at3 : Nat → Nat → Nat → Int

/-- Pixel rows of the fixed `arrowhead` test image (sxcv.py lines 275-286). -/
def arrowheadRows : List (List Int) := [
  [0,   0,   0,   0,   0,   0,   0,   0,   0],
  [0,   0,   0,   0, 255,   0,   0,   0,   0],
  [0,   0,   0, 255, 255, 255,   0,   0,   0],
  [0,   0, 255, 255, 255, 255, 255,   0,   0],
  [0,   0,   0,   0, 255,   0,   0,   0,   0],
  [0,   0,   0,   0, 255,   0,   0,   0,   0],
  [0,   0,   0,   0, 255,   0,   0,   0,   0],
  [0,   0,   0,   0, 255,   0,   0,   0,   0],
  [0,   0,   0,   0, 255,   0,   0,   0,   0],
  [0,   0,   0,   0,   0,   0,   0,   0,   0]]

/-- The `arrowhead` fixture: a 10 x 9 uint8 monochrome image (sxcv.py 253-287). -/
def arrowhead : Image :=
  ⟨[10, 9], "uint8", fun y x => (arrowheadRows.getD y []).getD x 0, fun _ _ _ => 0⟩

/-- Embeds `create_mask` (sxcv.py 290-362): three named masks, any other
name raises ValueError with the name in the message. -/
def create_mask (name : String) : Except String (List (List Int)) :=
  if name = "blur3" then
    .ok [[1, 1, 1], [1, 1, 1], [1, 1, 1]]
  else if name = "blur5" then
    .ok [[1, 1, 1, 1, 1], [1, 1, 1, 1, 1], [1, 1, 1, 1, 1],
         [1, 1, 1, 1, 1], [1, 1, 1, 1, 1]]
  else if name = "laplacian" then
    .ok [[1, 1, 1], [1, -1, 1], [1, 1, 1]]
  else
    .error ("I don't know how to generate a '" ++ name ++ "' mask!")

/-- Embeds `describe` (sxcv.py 365-403): branch on the rank of the shape;
ranks other than 2 and 3 raise ValueError carrying the rank. -/
def describe (im : Image) (title : String) : Except String String :=
  match im.shape with
  | [ny, nx] =>
    .ok (title ++ " " ++ "is monochrome" ++ " of size " ++ toString ny ++
         " rows x " ++ toString nx ++ " columns with " ++ im.dtype ++ " pixels.")
  | [ny, nx, nc] =>
    .ok (title ++ " " ++ ("has " ++ toString nc ++ " channels") ++ " of size " ++
         toString ny ++ " rows x " ++ toString nx ++ " columns with " ++
         im.dtype ++ " pixels.")
  | s =>
    .error ("I have a '" ++ toString s.length ++ "'-dimensional image!")

/-- The process-wide mutable state of the module: the DEBUG flag and the
ENVIRONMENT keyword list parsed from the SXCV variable (sxcv.py 62-78). -/
structure SxcvState where
  debug : Bool
  environment : List String

/-- Embeds `debug_set` (sxcv.py 138-147): unconditionally overwrite DEBUG. -/
def debug_set (value : Bool) (s : SxcvState) : SxcvState :=
  ⟨value, s.environment⟩

/-- Embeds `debugging` (sxcv.py 150-162): read DEBUG. -/
def debugging (s : SxcvState) : Bool :=
  s.debug

/-- Embeds `debug_off` (sxcv.py 165-172). -/
def debug_off (s : SxcvState) : SxcvState :=
  debug_set false s

/-- Embeds `debug_on` (sxcv.py 175-182). -/
def debug_on (s : SxcvState) : SxcvState :=
  debug_set true s

/-- Observable side effects of the display routines: terminal prints,
pop-up window operations, file writes/removals, external commands. -/
inductive Effect where
  | printLine (s : String)
  | imshow (title : String)
  | waitKey (delay : Int)
  | destroyWindow (title : String)
  | imwrite (fn : String)
  | runSystem (cmd : String) (status : Int)
  | removeFile (fn : String)
deriving DecidableEq

/-- Effect trace of `display_sixel` (sxcv.py 214-247).  `fn` is the unique
temporary file name produced by `tempfile.NamedTemporaryFile`; `status` is
the exit status returned by `os.system`, which reports failure of
`img2sixel` as a value and never raises, so the steps after it always run. -/
def display_sixel_effects (fn : String) (status : Int) (title : String)
    (levels : Int) : List Effect :=
  [Effect.printLine (title ++ ":"),
   Effect.imwrite fn,
   Effect.runSystem ("img2sixel -p " ++ toString levels ++ " " ++ fn ++ " 2>/dev/null") status,
   Effect.removeFile fn,
   Effect.printLine ""]

/-- Effect trace of `display` (sxcv.py 406-424): pop-up window via
cv2.imshow, wait, optional destroy; a missing title defaults to argv[0]. -/
def display_effects (title : Option String) (argv0 : String) (delay : Int)
    (destroy : Bool) : List Effect :=
  let t := title.getD argv0
  [Effect.imshow t, Effect.waitKey delay] ++
    (if destroy then [Effect.destroyWindow t] else [])

/-- Effect trace of `ddisplay` (sxcv.py 185-211): nothing unless debugging;
otherwise dispatch on the sixel keywords and the OS family. -/
def ddisplay_effects (s : SxcvState) (systype : String) (fn : String)
    (status : Int) (argv0 : String) (title : String) (delay : Int)
    (destroy : Bool) : List Effect :=
  bif debugging s then
    bif s.environment.contains "sixel16" && systype != "Windows" then
      display_sixel_effects fn status title 16
    else bif s.environment.contains "sixel256" && systype != "Windows" then
      display_sixel_effects fn status title 256
    else
      display_effects (some title) argv0 delay destroy
  else
    []

/-- Number of removals of file `fn` in an effect trace. -/
def countRemoves (fn : String) : List Effect → Nat
  | [] => 0
  | Effect.removeFile g :: rest => (if g = fn then 1 else 0) + countRemoves fn rest
  | _ :: rest => countRemoves fn rest

/-- Number of writes to file `fn` in an effect trace. -/
def countWrites (fn : String) : List Effect → Nat
  | [] => 0
  | Effect.imwrite g :: rest => (if g = fn then 1 else 0) + countWrites fn rest
  | _ :: rest => countWrites fn rest

/-- Python `"%<w>d" % n`: the decimal rendering of `n` right-justified
with spaces to width `w` (sxcv.py uses widths 4 and 5 in `examine`). -/
def fmtInt (w : Nat) (n : Int) : String :=
  let s := toString n
  String.mk (List.replicate (w - s.length) (Char.ofNat 32)) ++ s

/-- Python `range(lo, hi)` over integers. -/
def intRange (lo hi : Int) : List Int :=
  (List.range (hi - lo).toNat).map (fun i => lo + Int.ofNat i)

/-- Option-valued map over a list, failing if any element fails; models a
loop whose body may raise an IndexError. -/
def mapOpt {α β : Type} (f : α → Option β) : List α → Option (List β)
  | [] => some []
  | a :: rest =>
    match f a with
    | none => none
    | some b =>
      match mapOpt f rest with
      | none => none
      | some bs => some (b :: bs)

/-- Low edge of the clipped window (sxcv.py 462/466):
`lo = max(at - req//2, 0)`; `Int.fdiv` is Python floor division. -/
def clipLo (center req : Int) : Int :=
  max (center - Int.fdiv req 2) 0

/-- High edge of the clipped window (sxcv.py 463/467): `hi = min(lo + req, n)`. -/
def clipHi (lo req n : Int) : Int :=
  min (lo + req) n

/-- Realized extent of the clipped window (sxcv.py 464/468): `hi - lo`. -/
def clipSize (n center req : Int) : Int :=
  clipHi (clipLo center req) req n - clipLo center req

/-- The seven-space column prefix `start` in `examine` (sxcv.py 479). -/
def start7 : String :=
  String.mk (List.replicate 7 (Char.ofNat 32))

/-- A two-subscript read `im[y,x]`, failing outside the image bounds
(models numpy raising IndexError). -/
def get2 (im : Image) (y x : Int) : Option Int :=
  if 0 ≤ y ∧ y < (im.shape.getD 0 0 : Int) ∧ 0 ≤ x ∧ x < (im.shape.getD 1 0 : Int) then
    some (im.at2 y.toNat x.toNat)
  else
    none

/-- A three-subscript read `im[y,x,c]`, failing outside the image bounds. -/
def get3 (im : Image) (y x c : Int) : Option Int :=
  if 0 ≤ y ∧ y < (im.shape.getD 0 0 : Int) ∧ 0 ≤ x ∧ x < (im.shape.getD 1 0 : Int) ∧
     0 ≤ c ∧ c < (im.shape.getD 2 0 : Int) then
    some (im.at3 y.toNat x.toNat c.toNat)
  else
    none

/-- The column-index header line and its dashed rule (sxcv.py 478-483). -/
def headerBlock (xlo xhi : Int) : String :=
  let line := String.join ((intRange xlo xhi).map (fmtInt 4))
  start7 ++ line ++ "\n" ++ start7 ++ String.mk (List.replicate line.length (Char.ofNat 45)) ++ "\n"

/-- The summary line of `examine` (sxcv.py 474-476). -/
def summaryLine (rows cols : Int) (ny nx : Nat) (nc : Nat) (aty atx : Int) : String :=
  let channels := if nc == 0 then "monochrome" else toString nc ++ "-channel"
  "[" ++ toString rows ++ " x " ++ toString cols ++ " region of " ++ toString ny ++
    " x " ++ toString nx ++ "-pixel " ++ channels ++ " image at (" ++ toString aty ++
    "," ++ toString atx ++ ")]:\n"

/-- One row of the body of `examine` (sxcv.py 495-508): for monochrome a
single line of width-4 values, for multi-channel one sub-line per channel,
continuation lines prefixed by `start[:-2] + "| "`. -/
def rowBlock (im : Image) (nc : Nat) (xlo xhi : Int) (y : Int) : Option String :=
  match nc with
  | 0 =>
    match mapOpt (fun x => get2 im y x) (intRange xlo xhi) with
    | some vals => some (fmtInt 5 y ++ "| " ++ String.join (vals.map (fmtInt 4)) ++ "\n")
    | none => none
  | Nat.succ _ =>
    match mapOpt (fun c =>
        match mapOpt (fun x => get3 im y x (c : Int)) (intRange xlo xhi) with
        | some vals =>
          some ((if c == 0 then "" else start7.dropRight 2 ++ "| ") ++
                String.join (vals.map (fmtInt 4)) ++ "\n")
        | none => none) (List.range nc) with
    | some lines => some (fmtInt 5 y ++ "| " ++ String.join lines)
    | none => none

/-- Default of an omitted center argument of `examine` (sxcv.py 458-459):
the middle of the extent, `n // 2`. -/
def centerDefault (c0 : Option Int) (n : Nat) : Int :=
  c0.getD (Int.fdiv n 2)

/-- Embeds `examine` (sxcv.py 427-511).  `aty0`/`atx0` are the optional
center arguments (None defaults to the image middle), `rows0`/`cols0` the
requested extents, `title` the optional title line.  The result is `none`
when the code would raise (shape too short for the `im.shape[k]` reads, or
a pixel read out of bounds). -/
def examine (im : Image) (aty0 atx0 : Option Int) (rows0 cols0 : Int)
    (title : Option String) : Option String :=
  match im.shape with
  | ny :: nx :: restShape =>
    let nc : Nat := match restShape with | c :: _ => c | [] => 0
    let aty : Int := centerDefault aty0 ny
    let atx : Int := centerDefault atx0 nx
    let ylo := clipLo aty rows0
    let yhi := clipHi ylo rows0 (ny : Int)
    let rows := yhi - ylo
    let xlo := clipLo atx cols0
    let xhi := clipHi xlo cols0 (nx : Int)
    let cols := xhi - xlo
    let titleText := match title with | some t => t ++ "\n" | none => ""
    match mapOpt (rowBlock im nc xlo xhi) (intRange ylo yhi) with
    | some blocks =>
      some (titleText ++ summaryLine rows cols ny nx nc aty atx ++
            headerBlock xlo xhi ++ String.join blocks)
    | none => none
  | _ => none

/-- Default of the `rows` keyword of `examine` (sxcv.py 427: `rows=15`). -/
def examineDefaultRows : Int := 15

/-- Default of the `cols` keyword of `examine` (sxcv.py 427: `cols=15`). -/
def examineDefaultCols : Int := 15

/-- The call `examine(im)` with every optional argument defaulted. -/
def examineDefaults (im : Image) : Option String :=
  examine im none none examineDefaultRows examineDefaultCols none

/-- Wrap a rank-2 integer mask, as returned by `create_mask`, as an image
(numpy dtype "int" is int64 on the course platforms). -/
def maskImage (m : List (List Int)) : Image :=
  ⟨[m.length, (m.headD []).length], "int64",
   fun y x => (m.getD y []).getD x 0, fun _ _ _ => 0⟩

/-- A 20 x 20 all-zero uint8 image, used to exhibit the behaviour of
`examine` with defaulted arguments on an image larger than 15 x 15. -/
def im20x20 : Image :=
  ⟨[20, 20], "uint8", fun _ _ => 0, fun _ _ _ => 0⟩

/-! Helper lemmas. -/

theorem intRange_bounds {lo hi y : Int} (h : y ∈ intRange lo hi) : lo ≤ y ∧ y < hi := by
  unfold intRange at h
  obtain ⟨i, hmem, hfy⟩ := List.mem_map.mp h
  replace hmem := List.mem_range.mp hmem
  subst hfy
  simp only [Int.ofNat_eq_coe]
  omega

theorem intRange_nil {lo hi : Int} (h : hi ≤ lo) : intRange lo hi = [] := by
  unfold intRange
  have hz : (hi - lo).toNat = 0 := by omega
  rw [hz]
  rfl

theorem mapOpt_total {α β : Type} {f : α → Option β} :
    ∀ {l : List α}, (∀ a ∈ l, ∃ b, f a = some b) → ∃ bs, mapOpt f l = some bs := by
  intro l
  induction l with
  | nil => intro _; exact ⟨[], rfl⟩
  | cons a rest ih =>
    intro h
    obtain ⟨b, hb⟩ := h a (List.mem_cons_self a rest)
    obtain ⟨bs, hbs⟩ := ih (fun x hx => h x (List.mem_cons_of_mem a hx))
    exact ⟨b :: bs, by simp [mapOpt, hb, hbs]⟩

theorem string_empty_append (s : String) : "" ++ s = s := by
  cases s
  rfl

theorem string_append_empty (s : String) : s ++ "" = s := by
  cases s with
  | mk l =>
    show String.mk (l ++ []) = String.mk l
    rw [List.append_nil]

theorem string_join_nil : String.join ([] : List String) = "" := rfl

theorem string_append_assoc (a b c : String) : (a ++ b) ++ c = a ++ (b ++ c) := by
  cases a with
  | mk la =>
    cases b with
    | mk lb =>
      cases c with
      | mk lc =>
        show String.mk ((la ++ lb) ++ lc) = String.mk (la ++ (lb ++ lc))
        rw [List.append_assoc]

/-- Evaluation shape of `examine` on a rank-2 image with no title: it
always returns the title-less text built from the summary line, the header
block and the joined body rows, and the body is empty when the clipped row
range is empty. -/
theorem examine_mono_some (dt : String) (a2 : Nat → Nat → Int)
    (a3 : Nat → Nat → Nat → Int) (ny nx : Nat) (aty0 atx0 : Option Int)
    (rows0 cols0 : Int) :
    ∃ blocks : List String,
      examine ⟨[ny, nx], dt, a2, a3⟩ aty0 atx0 rows0 cols0 none =
        some ("" ++
          summaryLine
            (clipHi (clipLo (centerDefault aty0 ny) rows0) rows0 (ny : Int) -
              clipLo (centerDefault aty0 ny) rows0)
            (clipHi (clipLo (centerDefault atx0 nx) cols0) cols0 (nx : Int) -
              clipLo (centerDefault atx0 nx) cols0)
            ny nx 0 (centerDefault aty0 ny) (centerDefault atx0 nx) ++
          headerBlock (clipLo (centerDefault atx0 nx) cols0)
            (clipHi (clipLo (centerDefault atx0 nx) cols0) cols0 (nx : Int)) ++
          String.join blocks) ∧
      (clipHi (clipLo (centerDefault aty0 ny) rows0) rows0 (ny : Int) ≤
          clipLo (centerDefault aty0 ny) rows0 → blocks = []) := by
  have hget : ∀ y x : Int, 0 ≤ y → y < (ny : Int) → 0 ≤ x → x < (nx : Int) →
      get2 ⟨[ny, nx], dt, a2, a3⟩ y x = some (a2 y.toNat x.toNat) := by
    intro y x h1 h2 h3 h4
    unfold get2
    exact if_pos ⟨h1, h2, h3, h4⟩
  have hrowl : ∀ y ∈ intRange (clipLo (centerDefault aty0 ny) rows0)
      (clipHi (clipLo (centerDefault aty0 ny) rows0) rows0 (ny : Int)),
      ∃ b, rowBlock ⟨[ny, nx], dt, a2, a3⟩ 0 (clipLo (centerDefault atx0 nx) cols0)
             (clipHi (clipLo (centerDefault atx0 nx) cols0) cols0 (nx : Int)) y = some b := by
    intro y hy
    obtain ⟨hy1, hy2⟩ := intRange_bounds hy
    have hylo : (0 : Int) ≤ clipLo (centerDefault aty0 ny) rows0 := le_max_right _ _
    have hyhi : clipHi (clipLo (centerDefault aty0 ny) rows0) rows0 (ny : Int) ≤ (ny : Int) :=
      min_le_right _ _
    have hxall : ∀ x ∈ intRange (clipLo (centerDefault atx0 nx) cols0)
        (clipHi (clipLo (centerDefault atx0 nx) cols0) cols0 (nx : Int)),
        ∃ v, get2 ⟨[ny, nx], dt, a2, a3⟩ y x = some v := by
      intro x hx
      obtain ⟨hx1, hx2⟩ := intRange_bounds hx
      have hxlo : (0 : Int) ≤ clipLo (centerDefault atx0 nx) cols0 := le_max_right _ _
      have hxhi : clipHi (clipLo (centerDefault atx0 nx) cols0) cols0 (nx : Int) ≤ (nx : Int) :=
        min_le_right _ _
      exact ⟨_, hget y x (le_trans hylo hy1) (lt_of_lt_of_le hy2 hyhi)
                  (le_trans hxlo hx1) (lt_of_lt_of_le hx2 hxhi)⟩
    obtain ⟨vals, hvals⟩ := mapOpt_total hxall
    refine ⟨fmtInt 5 y ++ "| " ++ String.join (vals.map (fmtInt 4)) ++ "\n", ?_⟩
    simp only [rowBlock]
    rw [hvals]
  obtain ⟨blocks, hblocks⟩ := mapOpt_total hrowl
  refine ⟨blocks, ?_, ?_⟩
  · simp only [examine]
    rw [hblocks]
  · intro hemp
    rw [intRange_nil hemp] at hblocks
    have hb : (some ([] : List String)) = some blocks := hblocks
    injection hb with hb2
    exact hb2.symm

/-! Claim theorems. -/

/-- Claim C9: after `debug_set v` the flag reads back as `v`, whatever the
prior flag or environment; `debug_on`/`debug_off` are exactly
`debug_set true`/`debug_set false`; all four operations are total. -/
theorem C9_debug_state :
    ∀ (v : Bool) (s : SxcvState),
      debugging (debug_set v s) = v ∧
      debug_on s = debug_set true s ∧
      debug_off s = debug_set false s := by
  intro v s
  exact ⟨rfl, rfl, rfl⟩

/-- Claim C2: `create_mask` returns the 3 x 3 all-ones mask for "blur3",
the 5 x 5 all-ones mask for "blur5", the ones-with-center-(-1) mask for
"laplacian", and for any other name the ValueError whose message carries
that name verbatim. -/
theorem C2_create_mask_spec :
    create_mask "blur3" = .ok [[1, 1, 1], [1, 1, 1], [1, 1, 1]] ∧
    create_mask "blur5" = .ok [[1, 1, 1, 1, 1], [1, 1, 1, 1, 1], [1, 1, 1, 1, 1],
                               [1, 1, 1, 1, 1], [1, 1, 1, 1, 1]] ∧
    create_mask "laplacian" = .ok [[1, 1, 1], [1, -1, 1], [1, 1, 1]] ∧
    ∀ name : String, name ≠ "blur3" → name ≠ "blur5" → name ≠ "laplacian" →
      create_mask name = .error ("I don't know how to generate a '" ++ name ++ "' mask!") := by
  refine ⟨rfl, rfl, rfl, ?_⟩
  intro name h1 h2 h3
  simp [create_mask, h1, h2, h3]

/-- Witness for C2 at the concrete unsupported name "whatsit". -/
theorem C2_create_mask_witness :
    create_mask "whatsit" =
      .error ("I don't know how to generate a '" ++ "whatsit" ++ "' mask!") :=
  C2_create_mask_spec.2.2.2 "whatsit" (by decide) (by decide) (by decide)

/-- Claim C5: with the debug flag false, `ddisplay` produces no effect at
all -- no pop-up, no terminal output, no file created or removed --
whatever the environment keywords, OS, image, title, delay or destroy flag. -/
theorem C5_noop_when_not_debugging :
    ∀ (env : List String) (systype fn : String) (status : Int)
      (argv0 title : String) (delay : Int) (destroy : Bool),
      ddisplay_effects ⟨false, env⟩ systype fn status argv0 title delay destroy = [] := by
  intros
  rfl

/-- Claim C6: with the debug flag true, `ddisplay` renders via the sixel
path at depth 16 when "sixel16" is set and the OS is not Windows, else via
the sixel path at depth 256 when "sixel256" is set and the OS is not
Windows, and otherwise via the pop-up path with the given delay and
destroy arguments. -/
theorem C6_dispatch :
    ∀ (env : List String) (systype fn : String) (status : Int)
      (argv0 title : String) (delay : Int) (destroy : Bool),
      ((env.contains "sixel16" && systype != "Windows") = true →
        ddisplay_effects ⟨true, env⟩ systype fn status argv0 title delay destroy =
          display_sixel_effects fn status title 16) ∧
      ((env.contains "sixel16" && systype != "Windows") = false →
       (env.contains "sixel256" && systype != "Windows") = true →
        ddisplay_effects ⟨true, env⟩ systype fn status argv0 title delay destroy =
          display_sixel_effects fn status title 256) ∧
      ((env.contains "sixel16" && systype != "Windows") = false →
       (env.contains "sixel256" && systype != "Windows") = false →
        ddisplay_effects ⟨true, env⟩ systype fn status argv0 title delay destroy =
          display_effects (some title) argv0 delay destroy) := by
  intro env systype fn status argv0 title delay destroy
  refine ⟨?_, ?_, ?_⟩
  · intro h16
    simp only [ddisplay_effects, debugging, h16, cond_true]
  · intro h16 h256
    simp only [ddisplay_effects, debugging, h16, h256, cond_true, cond_false]
  · intro h16 h256
    simp only [ddisplay_effects, debugging, h16, h256, cond_true, cond_false]

/-- Witness for C6 at concrete environments: sixel16 on Linux, sixel256 on
Linux, and the empty keyword set. -/
theorem C6_dispatch_witness :
    ddisplay_effects ⟨true, ["sixel16"]⟩ "Linux" "f.png" 0 "prog" "t" 0 true =
      display_sixel_effects "f.png" 0 "t" 16 ∧
    ddisplay_effects ⟨true, ["sixel256"]⟩ "Linux" "f.png" 1 "prog" "t" 0 true =
      display_sixel_effects "f.png" 1 "t" 256 ∧
    ddisplay_effects ⟨true, []⟩ "Windows" "f.png" 0 "prog" "t" 7 false =
      display_effects (some "t") "prog" 7 false :=
  ⟨(C6_dispatch ["sixel16"] "Linux" "f.png" 0 "prog" "t" 0 true).1 (by decide),
   (C6_dispatch ["sixel256"] "Linux" "f.png" 1 "prog" "t" 0 true).2.1 (by decide) (by decide),
   (C6_dispatch [] "Windows" "f.png" 0 "prog" "t" 7 false).2.2 (by decide) (by decide)⟩

/-- Claim C7: every execution of the sixel path writes its temporary file
exactly once and removes it exactly once, for every exit status of the
external `img2sixel` command (os.system reports failure as a status value
and never raises, so the removal is unconditional). -/
theorem C7_sixel_cleanup :
    ∀ (fn : String) (status : Int) (title : String) (levels : Int),
      countRemoves fn (display_sixel_effects fn status title levels) = 1 ∧
      countWrites fn (display_sixel_effects fn status title levels) = 1 := by
  intro fn status title levels
  constructor
  · simp [display_sixel_effects, countRemoves]
  · simp [display_sixel_effects, countWrites]

/-- Claim C3 counterexample: with extent 3, center 100 and requested
count 15 (the default), the realized size is -90, so the claimed
"realized size is always greater than or equal to 0" is false. -/
theorem C3_counterexample : ¬ (0 ≤ clipSize 3 100 15) := by decide

/-- Claim C3 as amended: the realized size `hi - lo` never exceeds the
extent; it is nonnegative provided the requested count is nonnegative and
the clipped low edge does not pass the extent (when the center lies beyond
the image the size can be negative, though nothing is thrown). -/
theorem C3_clip_amended :
    ∀ (n center req : Int),
      clipSize n center req ≤ n ∧
      (0 ≤ req → clipLo center req ≤ n → 0 ≤ clipSize n center req) := by
  intro n center req
  constructor
  · have h1 : (0 : Int) ≤ clipLo center req := le_max_right _ _
    have h2 : clipHi (clipLo center req) req n ≤ n := min_le_right _ _
    unfold clipSize
    omega
  · intro hreq hlo
    have h3 : clipLo center req ≤ clipHi (clipLo center req) req n :=
      le_min (by omega) hlo
    unfold clipSize
    omega

/-- Witness for C3 at extent 10, center 5, requested count 4. -/
theorem C3_clip_witness :
    0 ≤ clipSize 10 5 4 ∧ clipSize 10 5 4 ≤ 10 :=
  ⟨(C3_clip_amended 10 5 4).2 (by decide) (by decide), (C3_clip_amended 10 5 4).1⟩

/-- Claim C1: `describe` raises the invalid-shape ValueError, carrying the
observed rank, exactly when the rank is neither 2 nor 3; rank 2 uses the
"is monochrome" branch and rank 3 the "has N channels" branch, both
embedding the exact row count, column count and dtype; and on the
arrowhead fixture it produces the documented sentence. -/
theorem C1_describe_spec :
    (∀ (im : Image) (title : String),
      describe im title =
          .error ("I have a '" ++ toString im.shape.length ++ "'-dimensional image!") ↔
        (im.shape.length ≠ 2 ∧ im.shape.length ≠ 3)) ∧
    (∀ (im : Image) (title : String) (ny nx : Nat), im.shape = [ny, nx] →
      describe im title = .ok (title ++ " " ++ "is monochrome" ++ " of size " ++
        toString ny ++ " rows x " ++ toString nx ++ " columns with " ++
        im.dtype ++ " pixels.")) ∧
    (∀ (im : Image) (title : String) (ny nx nc : Nat), im.shape = [ny, nx, nc] →
      describe im title = .ok (title ++ " " ++ ("has " ++ toString nc ++ " channels") ++
        " of size " ++ toString ny ++ " rows x " ++ toString nx ++ " columns with " ++
        im.dtype ++ " pixels.")) ∧
    describe arrowhead "This image" =
      .ok "This image is monochrome of size 10 rows x 9 columns with uint8 pixels." := by
  have harrow : describe arrowhead "This image" =
      .ok "This image is monochrome of size 10 rows x 9 columns with uint8 pixels." := rfl
  refine ⟨?_, ?_, ?_, harrow⟩
  · intro im title
    obtain ⟨sh, dt, a2, a3⟩ := im
    rcases sh with _ | ⟨a, _ | ⟨b, _ | ⟨c, _ | ⟨d, rest⟩⟩⟩⟩
    · simp [describe]
    · simp [describe]
    · simp [describe]
    · simp [describe]
    · simp only [describe, List.length_cons]
      constructor
      · intro _
        constructor <;> omega
      · intro _
        trivial
  · intro im title ny nx h
    obtain ⟨sh, dt, a2, a3⟩ := im
    change sh = [ny, nx] at h
    subst h
    rfl
  · intro im title ny nx nc h
    obtain ⟨sh, dt, a2, a3⟩ := im
    change sh = [ny, nx, nc] at h
    subst h
    rfl

/-- Witness for C1 on a concrete 4 x 7 monochrome image. -/
theorem C1_describe_witness :
    describe ⟨[4, 7], "uint8", fun _ _ => 0, fun _ _ _ => 0⟩ "Image" =
      .ok ("Image" ++ " " ++ "is monochrome" ++ " of size " ++ toString (4 : Nat) ++
        " rows x " ++ toString (7 : Nat) ++ " columns with " ++ "uint8" ++ " pixels.") :=
  C1_describe_spec.2.1 ⟨[4, 7], "uint8", fun _ _ => 0, fun _ _ _ => 0⟩ "Image" 4 7 rfl

/-- Claim C4, the divergence theorem: the requested row/column counts of
`examine` default to 15 (sxcv.py 427), not to the image extent as the
docstring states, so the all-defaults call on a 20 x 20 image formats only
a 15 x 15 region. -/
theorem C4_default_divergence :
    examineDefaultRows = 15 ∧ examineDefaultCols = 15 ∧
    ∃ rest, examineDefaults im20x20 =
      some ("[15 x 15 region of 20 x 20-pixel monochrome image at (10,10)]:\n" ++ rest) := by
  refine ⟨rfl, rfl, ?_⟩
  obtain ⟨blocks, hex, _⟩ :=
    examine_mono_some "uint8" (fun _ _ => 0) (fun _ _ _ => 0) 20 20 none none 15 15
  refine ⟨headerBlock (clipLo (centerDefault none 20) 15)
      (clipHi (clipLo (centerDefault none 20) 15) 15 ((20 : Nat) : Int)) ++
      String.join blocks, ?_⟩
  have h1 : examineDefaults im20x20 =
      examine ⟨[20, 20], "uint8", fun _ _ => 0, fun _ _ _ => 0⟩ none none 15 15 none := rfl
  rw [h1, hex, string_empty_append, string_append_assoc]
  congr 2

/-- Claim C8: `examine(create_mask("laplacian"))` is the documented 3 x 3
region display centered at (1,1), each value right-justified in a
4-character field, the -1 rendered as two spaces followed by "-1". -/
theorem C8_examine_laplacian :
    create_mask "laplacian" = .ok [[1, 1, 1], [1, -1, 1], [1, 1, 1]] ∧
    examineDefaults (maskImage [[1, 1, 1], [1, -1, 1], [1, 1, 1]]) =
      some ("[3 x 3 region of 3 x 3-pixel monochrome image at (1,1)]:\n" ++
            "          0   1   2\n" ++
            "       ------------\n" ++
            "    0|    1   1   1\n" ++
            "    1|    1  -1   1\n" ++
            "    2|    1   1   1\n") ∧
    fmtInt 4 (-1) = "  -1" :=
  ⟨rfl, by decide, by decide⟩

/-- Claim C10 counterexample: with the 3 x 3 laplacian mask and center
(1,100), the requested window lies entirely outside the image columns
(its low edge, 99, is past the 3 columns), yet the result is not the
summary and header lines alone: the body holds one stub line per clipped
row, refuting the claimed empty body for every entirely-outside window. -/
theorem C10_counterexample :
    (3 : Int) ≤ clipLo 100 3 ∧
    examine (maskImage [[1, 1, 1], [1, -1, 1], [1, 1, 1]]) (some 1) (some 100) 3 3 none =
      some ("[3 x -96 region of 3 x 3-pixel monochrome image at (1,100)]:\n" ++
            "       \n" ++ "       \n" ++ "    0| \n" ++ "    1| \n" ++ "    2| \n") ∧
    examine (maskImage [[1, 1, 1], [1, -1, 1], [1, 1, 1]]) (some 1) (some 100) 3 3 none ≠
      some (summaryLine 3 (-96) 3 3 0 1 100 ++ headerBlock 99 3) :=
  ⟨by decide, by decide, by decide⟩

/-- Claim C10 as amended: on any rank-2 image with positive extents, for
arbitrary integer centers and nonnegative requested counts, `examine`
returns a string (every pixel read is inside the bounds, never an
indexing error); and when the clipped row range is empty -- the center
far enough past the image's last row -- the result consists of the
summary and header lines alone.  (A window outside only in the column
direction still emits one stub line per clipped row, and a window out
the low side is clamped back into the image.) -/
theorem C10_examine_total
    (im : Image) (ny nx : Nat) (aty atx rows cols : Int)
    (hshape : im.shape = [ny, nx]) (hny : 0 < ny) (hnx : 0 < nx)
    (hrows : 0 ≤ rows) (hcols : 0 ≤ cols) :
    ∃ s, examine im (some aty) (some atx) rows cols none = some s ∧
      (clipHi (clipLo aty rows) rows (ny : Int) ≤ clipLo aty rows →
        s = summaryLine (clipHi (clipLo aty rows) rows (ny : Int) - clipLo aty rows)
              (clipHi (clipLo atx cols) cols (nx : Int) - clipLo atx cols) ny nx 0 aty atx ++
            headerBlock (clipLo atx cols) (clipHi (clipLo atx cols) cols (nx : Int))) := by
  obtain ⟨sh, dt, a2, a3⟩ := im
  change sh = [ny, nx] at hshape
  subst hshape
  obtain ⟨blocks, hex, hnil⟩ :=
    examine_mono_some dt a2 a3 ny nx (some aty) (some atx) rows cols
  refine ⟨_, hex, ?_⟩
  intro hemp
  have hb : blocks = [] := hnil hemp
  subst hb
  simp only [string_join_nil, string_empty_append, string_append_empty]
  rfl

/-- Witness for C10: the arrowhead image with a far out-of-bounds center. -/
theorem C10_examine_witness :
    ∃ s, examine arrowhead (some 100) (some (-4)) 3 7 none = some s ∧
      (clipHi (clipLo 100 3) 3 ((10 : Nat) : Int) ≤ clipLo 100 3 →
        s = summaryLine (clipHi (clipLo 100 3) 3 ((10 : Nat) : Int) - clipLo 100 3)
              (clipHi (clipLo (-4) 7) 7 ((9 : Nat) : Int) - clipLo (-4) 7) 10 9 0 100 (-4) ++
            headerBlock (clipLo (-4) 7) (clipHi (clipLo (-4) 7) 7 ((9 : Nat) : Int))) :=
  C10_examine_total arrowhead 10 9 100 (-4) 3 7 rfl (by decide) (by decide)
    (by decide) (by decide)

end Sxcv
